import Mathlib

/-!
Verification of the xknx KNXnet/IP client core.

This file gives a shallow embedding of the parts of the repository that the
verified properties speak about: the KNXnet/IP frame codec, the telegram
dispatch queue, the request/response action state machine, the value reader,
the configuration parser and the device container.  The codec, queue, action
and reader implementations are not part of the repository snapshot (only
their tests are), so those definitions are modelled from the specification;
`Config` and `Devices` are translated from `src/xknx/core/config.py` and
`src/xknx/devices/devices.py`.
-/

set_option autoImplicit false

namespace Xknx

/-! ## Frame codec -/

/-- Errors raised by the binary frame codec (`CouldNotParseKNXIP` in the
repository; the spec calls the class `FrameParseError`). -/
inductive CouldNotParseKNXIP where
  | headerTooShort
  | wrongHeaderLength
  | wrongProtocolVersion
  | totalLengthMismatch
  | bodyTooShort
  deriving DecidableEq, Repr

/-- Modelled from the spec: HPAI (Host Protocol Address Information), an
IPv4 address plus UDP port with a fixed 8-byte wire layout
(structure octet count, protocol code, 4-byte IPv4 address, 2-byte port),
big-endian throughout. -/
structure HPAI where
  ip0 : Nat
  ip1 : Nat
  ip2 : Nat
  ip3 : Nat
  port : Nat
  deriving DecidableEq, Repr

/-- Modelled from the spec: the 8-byte encoding of an HPAI: structure octet
count 8, protocol code 1 (IPv4 UDP), the four address octets, then the
16-bit port big-endian. -/
def HPAI.encode (h : HPAI) : List Nat :=
  [8, 1, h.ip0, h.ip1, h.ip2, h.ip3, h.port / 256, h.port % 256]

/-- Modelled from the spec: decoding an HPAI from the start of a byte
sequence; fails when fewer than 8 bytes remain or the two leading structure
bytes are wrong. -/
def HPAI.decode (raw : List Nat) : Except CouldNotParseKNXIP HPAI :=
  match raw with
  | sz :: proto :: a :: b :: c :: d :: ph :: pl :: _ =>
    if sz = 8 ∧ proto = 1 then
      Except.ok ⟨a, b, c, d, ph * 256 + pl⟩
    else
      Except.error CouldNotParseKNXIP.bodyTooShort
  | _ => Except.error CouldNotParseKNXIP.bodyTooShort

/-- Modelled from the spec: the KNXnet/IP service bodies the verified claims
touch.  A frame whose header carries an unknown service type identifier
decodes to an `unsupported` placeholder instead of failing. -/
inductive KNXIPBody where
  | connectionStateRequest (communication_channel_id : Nat) (control_endpoint : HPAI)
  | unsupported (serviceType : Nat) (data : List Nat)
  deriving DecidableEq, Repr

/-- Modelled from the spec: a KNXnet/IP frame: a service type identifier
selecting the body variant, plus the body. -/
structure KNXIPFrame where
  serviceType : Nat
  body : KNXIPBody
  deriving DecidableEq, Repr

/-- The service type identifier of a ConnectionStateRequest (0x0207). -/
def CONNECTIONSTATE_REQUEST : Nat := 0x0207

/-- Modelled from the spec: body encoding.  A ConnectionStateRequest body is
the communication channel id, one reserved zero byte, and the 8-byte control
endpoint HPAI. -/
def KNXIPBody.encode : KNXIPBody → List Nat
  | KNXIPBody.connectionStateRequest ch ep => ch :: 0 :: ep.encode
  | KNXIPBody.unsupported _ data => data

/-- Modelled from the spec: `encoded_length`, the body's own length on the
wire, used to cross-check the frame's declared total length. -/
def KNXIPBody.encodedLength (b : KNXIPBody) : Nat :=
  b.encode.length

/-- Modelled from the spec: body decoding selected by the header's service
type.  A ConnectionStateRequest needs at least channel id, reserved byte and
an HPAI; an unknown service type yields the `unsupported` placeholder. -/
def KNXIPBody.decode (st : Nat) (raw : List Nat) : Except CouldNotParseKNXIP KNXIPBody :=
  if st = CONNECTIONSTATE_REQUEST then
    match raw with
    | ch :: _reserved :: rest =>
      (HPAI.decode rest).map (fun ep => KNXIPBody.connectionStateRequest ch ep)
    | _ => Except.error CouldNotParseKNXIP.bodyTooShort
  else
    Except.ok (KNXIPBody.unsupported st raw)

/-- Modelled from the spec: frame decoding.  The fixed 6-byte header is
header length 0x06, protocol version 0x10, the 16-bit service type and the
16-bit total length; the total length field must equal header length plus
the body's encoded length (violated frames are rejected), then the body is
decoded according to the service type. -/
def KNXIPFrame.decode (raw : List Nat) : Except CouldNotParseKNXIP KNXIPFrame :=
  match raw with
  | hl :: pv :: st1 :: st2 :: tl1 :: tl2 :: rest =>
    if hl ≠ 6 then Except.error CouldNotParseKNXIP.wrongHeaderLength
    else if pv ≠ 0x10 then Except.error CouldNotParseKNXIP.wrongProtocolVersion
    else if tl1 * 256 + tl2 ≠ 6 + rest.length then
      Except.error CouldNotParseKNXIP.totalLengthMismatch
    else
      (KNXIPBody.decode (st1 * 256 + st2) rest).map
        (fun b => { serviceType := st1 * 256 + st2, body := b })
  | _ => Except.error CouldNotParseKNXIP.headerTooShort

/-- Modelled from the spec: encoding of a normalized frame: `normalize`
recomputes the total length field as header length (6) plus the body's
encoded length, then the header and body are emitted big-endian. -/
def KNXIPFrame.encode (f : KNXIPFrame) : List Nat :=
  let total := 6 + f.body.encodedLength
  6 :: 0x10 :: f.serviceType / 256 :: f.serviceType % 256 ::
    total / 256 :: total % 256 :: f.body.encode

/-- Whether a decode attempt failed. -/
def isParseError {α : Type} (r : Except CouldNotParseKNXIP α) : Bool :=
  match r with
  | Except.error _ => true
  | Except.ok _ => false

/-- The 16-byte captured ConnectionStateRequest wire sample from the test
suite: 06 10 02 07 00 10 15 00 08 01 C0 A8 C8 0C C3 B4. -/
def connectionStateRequestSample : List Nat :=
  [0x06, 0x10, 0x02, 0x07, 0x00, 0x10, 0x15, 0x00,
   0x08, 0x01, 0xC0, 0xA8, 0xC8, 0x0C, 0xC3, 0xB4]

/-- The frame the sample is expected to decode to: channel id 21,
control endpoint 192.168.200.12:50100. -/
def connectionStateRequestFrame : KNXIPFrame :=
  { serviceType := CONNECTIONSTATE_REQUEST,
    body := KNXIPBody.connectionStateRequest 21 ⟨192, 168, 200, 12, 50100⟩ }

end Xknx

namespace Xknx

/-! ## Telegram data model -/

/-- A 16-bit KNX group address, compared by its raw value. -/
structure GroupAddress where
  raw : Nat
  deriving DecidableEq, Repr

/-- The three-level `main/middle/sub` form of a group address. -/
def GroupAddress.ofLevels (main middle sub : Nat) : GroupAddress :=
  ⟨main * 2048 + middle * 256 + sub⟩

/-- Direction of a telegram relative to this node. -/
inductive TelegramDirection where
  | INCOMING
  | OUTGOING
  deriving DecidableEq, Repr

/-- The type of a group telegram. -/
inductive TelegramType where
  | GROUP_READ
  | GROUP_WRITE
  | GROUP_RESPONSE
  deriving DecidableEq, Repr

/-- A decoded bus telegram: direction, group address, type and payload
(the payload is abstracted to an optional raw value). -/
structure Telegram where
  direction : TelegramDirection
  group_address : GroupAddress
  telegramtype : TelegramType
  payload : Option Nat
  deriving DecidableEq, Repr

/-! ## TelegramQueue

Modelled from the spec: the dispatch core is a single-consumer queue whose
consume loop separates incoming from outgoing telegrams, applies rate
limiting to outgoing traffic, and fans incoming telegrams out to filtered
callbacks and then to the device registry.  The effects of processing are
recorded as an explicit event trace. -/

/-- One observable effect of the telegram queue: a callback invocation, the
device-registry lookup, a device `process` call, a rate-limit suspension
(carrying the interval in seconds), a transmission, or a log entry. -/
inductive Event where
  | cbInvoked (idx : Nat)
  | deviceLookup (ga : GroupAddress)
  | deviceProcess (dev : Nat)
  | sleep (seconds : ℚ)
  | send (t : Telegram)
  | logWarnNoInterface
  | logError (t : Telegram) (msg : String)
  deriving DecidableEq, Repr

/-- Modelled from the spec: a registered callback: a handler returning the
"handled" signal, plus an optional list of address filters (evaluated here
as predicates on the group address). -/
structure TelegramCallback where
  callback : Telegram → Bool
  address_filters : Option (List (GroupAddress → Bool))

/-- Modelled from the spec: a callback pair with no filters always runs; a
pair with filters runs only if at least one filter matches the telegram's
group address. -/
def TelegramCallback.matches (cb : TelegramCallback) (t : Telegram) : Bool :=
  match cb.address_filters with
  | none => true
  | some filters => filters.any (fun f => f t.group_address)

/-- Modelled from the spec: iterate the registered callbacks in
registration order; each matching callback is invoked; if one returns a
truthy "handled" signal dispatch stops (no further callbacks, no device
routing); if none does, the telegram is routed to every device whose
address set contains its group address (one lookup in the device registry,
then one `process` call per device found). -/
def dispatchIncoming (cbs : List TelegramCallback)
    (devices_by_group_address : GroupAddress → List Nat)
    (idx : Nat) (t : Telegram) : List Event :=
  match cbs with
  | [] =>
    Event.deviceLookup t.group_address ::
      (devices_by_group_address t.group_address).map Event.deviceProcess
  | cb :: rest =>
    if cb.matches t then
      if cb.callback t then
        [Event.cbInvoked idx]
      else
        Event.cbInvoked idx :: dispatchIncoming rest devices_by_group_address (idx + 1) t
    else
      dispatchIncoming rest devices_by_group_address (idx + 1) t

/-- The static context a telegram queue processes against: the registered
callbacks, the device registry lookup, the configured rate limit (telegrams
per second, 0 = unlimited), and whether a KNXIP interface is attached. -/
structure QueueContext where
  callbacks : List TelegramCallback
  devices_by_group_address : GroupAddress → List Nat
  rate_limit : Nat
  has_knxip_interface : Bool

/-- Modelled from the spec: `process_telegram_incoming`. -/
def process_telegram_incoming (ctx : QueueContext) (t : Telegram) : List Event :=
  dispatchIncoming ctx.callbacks ctx.devices_by_group_address 0 t

/-- Modelled from the spec: `process_telegram_outgoing`: if a rate limit is
configured, suspend for the corresponding interval (1 / rate seconds)
before transmitting; then forward to the KNXIP interface if one is
attached, otherwise log a warning and drop the telegram. -/
def process_telegram_outgoing (ctx : QueueContext) (t : Telegram) : List Event :=
  (if 0 < ctx.rate_limit then [Event.sleep (1 / (ctx.rate_limit : ℚ))] else []) ++
    (if ctx.has_knxip_interface then [Event.send t] else [Event.logWarnNoInterface])

/-- Modelled from the spec: processing one dequeued telegram, split on its
direction. -/
def process_telegram_by_direction (ctx : QueueContext) (t : Telegram) : List Event :=
  match t.direction with
  | TelegramDirection.INCOMING => process_telegram_incoming ctx t
  | TelegramDirection.OUTGOING => process_telegram_outgoing ctx t

/-- Telegram-processing steps that may raise (`XKNXException` and friends);
the inner processing is abstracted as a function that either returns its
event trace or raises an error message. -/
def XknxRaising : Type := Telegram → Except String (List Event)

/-- Modelled from the spec: the consume loop drawn over a queue backlog:
each dequeued telegram is processed, and any exception raised while
processing it is caught at this level and logged together with the
offending telegram, after which the loop continues with the next
telegram. -/
def consume_loop (inner : XknxRaising) : List Telegram → List Event
  | [] => []
  | t :: rest =>
    match inner t with
    | Except.ok events => events ++ consume_loop inner rest
    | Except.error e => Event.logError t e :: consume_loop inner rest

/-! ## ValueReader

Modelled from the spec: the value reader registers a one-shot filtered
callback on the telegram queue, sends a GROUP_READ request telegram through
the outgoing path, and suspends until a matching telegram arrives or the
timeout elapses; the wait window is represented by the list of telegrams
delivered to the callback before the timeout. -/

/-- Modelled from the spec: `ValueReader.telegram_received` reports
"handled" exactly for a telegram of type GROUP_RESPONSE or GROUP_WRITE
addressed to the reader's target group address. -/
def ValueReader.telegram_received (target : GroupAddress) (t : Telegram) : Bool :=
  (t.telegramtype == TelegramType.GROUP_RESPONSE ||
    t.telegramtype == TelegramType.GROUP_WRITE) &&
  t.group_address == target

/-- The GROUP_READ request telegram `send_group_read` enqueues. -/
def group_read_telegram (target : GroupAddress) : Telegram :=
  { direction := TelegramDirection.OUTGOING,
    group_address := target,
    telegramtype := TelegramType.GROUP_READ,
    payload := none }

/-- What a `read()` call leaves behind: its return value, the callback
registry afterwards, the warnings logged, and the telegrams put on the
outgoing path. -/
structure ReadOutcome where
  result : Option Telegram
  callbacks : List Nat
  warnings : List GroupAddress
  sent : List Telegram
  deriving Repr

/-- Modelled from the spec: `ValueReader.read`: register a one-shot
callback (a fresh token appended to the registry), send the GROUP_READ
request, take the first delivered telegram the callback reports handled (an
absent result when none arrives before the timeout, in which case one
warning naming the target address is logged), and remove the registration
on both paths. -/
def ValueReader.read (target : GroupAddress) (tok : Nat) (cbs : List Nat)
    (delivered : List Telegram) : ReadOutcome :=
  let registered := cbs ++ [tok]
  let result := delivered.find? (fun t => ValueReader.telegram_received target t)
  { result := result,
    callbacks := registered.erase tok,
    warnings := match result with | none => [target] | some _ => [],
    sent := [group_read_telegram target] }

/-! ## Configuration parsing (`src/xknx/core/config.py`)

Translated from the source.  The yaml document is represented after
loading: an optional connection section (a list of named connection entries
whose preferences are an optional key/value list) and an optional groups
section (a list of group section names).  Device construction
(`cls.from_config`) is not part of the repository snapshot and is passed in
as a function that may raise. -/

/-- The exception class raised by configuration and device parsing. -/
structure XKNXException where
  message : String
  deriving DecidableEq, Repr

/-- Log entries `Config` emits through `xknx.logger.error`. -/
inductive ConfigLog where
  | couldNotParseConnection (conn : String) (ex : XKNXException)
  | couldNotParseGroup (group : String) (ex : XKNXException)
  | unknownDeviceType (group : String)
  deriving DecidableEq, Repr

/-- The preferences of one connection entry: absent (`None` in yaml) or a
key/value list. -/
def ConnPrefs : Type := Option (List (String × String))

/-- A loaded `xknx.yaml` document, restricted to the sections whose error
propagation is verified. -/
structure ConfigDoc where
  connection : Option (List (String × ConnPrefs))
  groups : Option (List String)

/-- From `Config.parse_connection`'s loop body: a `tunneling` entry whose
preferences are absent or lack a `gateway_ip` key raises `XKNXException`;
`routing` and anything else select a connection type without raising. -/
def parse_connection_entry (conn : String) (prefs : ConnPrefs) :
    Except XKNXException Unit :=
  if conn = "tunneling" then
    match prefs with
    | none =>
      Except.error ⟨"gateway_ip is required for tunneling connection."⟩
    | some kvs =>
      if kvs.any (fun kv => kv.1 = "gateway_ip") then
        Except.ok ()
      else
        Except.error ⟨"gateway_ip is required for tunneling connection."⟩
  else
    Except.ok ()

/-- From `Config.parse_connection`: each entry is tried in turn; an
`XKNXException` is logged ("Could not parse ...") and then re-raised, so it
aborts the loop and propagates. -/
def parse_connection_list :
    List (String × ConnPrefs) → List ConfigLog × Except XKNXException Unit
  | [] => ([], Except.ok ())
  | (conn, prefs) :: rest =>
    match parse_connection_entry conn prefs with
    | Except.ok _ => parse_connection_list rest
    | Except.error ex =>
      ([ConfigLog.couldNotParseConnection conn ex], Except.error ex)

/-- From `Config.parse_connection`: an absent connection section parses
trivially. -/
def parse_connection (doc : ConfigDoc) :
    List ConfigLog × Except XKNXException Unit :=
  match doc.connection with
  | none => ([], Except.ok ())
  | some entries => parse_connection_list entries

/-- Python's `str.startswith`, evaluated structurally over the character
lists of the two strings. -/
def pyStartsWith (s pre : String) : Bool :=
  pre.data.isPrefixOf s.data

/-- From `Config.parse_group`: the first device type whose name the group
section name starts with is parsed via `parse_cls` (passed in, may raise);
an `XKNXException` raised there is caught and only logged, never re-raised;
a section matching no device type logs an unknown-device-type error. -/
def parse_group (deviceTypes : List String)
    (parseCls : String → String → Except XKNXException Unit)
    (group : String) : List ConfigLog :=
  match deviceTypes.find? (fun name => pyStartsWith group name) with
  | some name =>
    match parseCls name group with
    | Except.ok _ => []
    | Except.error ex => [ConfigLog.couldNotParseGroup group ex]
  | none => [ConfigLog.unknownDeviceType group]

/-- From `Config.parse_groups`: every group section is parsed; none of them
can abort the loop because `parse_group` swallows `XKNXException`. -/
def parse_groups (deviceTypes : List String)
    (parseCls : String → String → Except XKNXException Unit)
    (doc : ConfigDoc) : List ConfigLog :=
  match doc.groups with
  | none => []
  | some gs => (gs.map (fun g => parse_group deviceTypes parseCls g)).flatten

/-- From `Config.read`: the sections are parsed in order; only
`FileNotFoundError` is caught there, so an `XKNXException` escaping
`parse_connection` propagates to the caller, while `parse_groups` returns
normally whatever its entries did. -/
def Config.read (deviceTypes : List String)
    (parseCls : String → String → Except XKNXException Unit)
    (doc : ConfigDoc) : List ConfigLog × Except XKNXException Unit :=
  match parse_connection doc with
  | (logs, Except.error ex) => (logs, Except.error ex)
  | (logs, Except.ok _) =>
    (logs ++ parse_groups deviceTypes parseCls doc, Except.ok ())

/-! ## Device container (`src/xknx/devices/devices.py`)

Translated from the source.  The `Device` class itself is outside the
snapshot; the container only consumes its `name` and `all_addresses`, so a
device is its (optional) name and its address list.  Python dicts are
insertion-ordered key/value lists: assignment replaces in place or appends,
lookup takes the first hit. -/

/-- A device as the container sees it: its name and the group addresses it
is interested in (`all_addresses`). -/
structure Device where
  name : Option String
  all_addresses : List GroupAddress
  deriving DecidableEq, Repr

/-- An argument passed to `Devices.add`: a `Device`, or any other Python
value (which fails the `isinstance` check). -/
inductive AddArg where
  | device (d : Device)
  | nonDevice (descr : String)

/-- The exceptions `Devices.add` can raise: `TypeError` for a non-device
argument, `XKNXException` for a missing or already-registered name. -/
inductive AddError where
  | typeError
  | alreadyRegistered (name : Option String)
  deriving DecidableEq, Repr

/-- Python dict assignment `l[k] = v` on an insertion-ordered key/value
list: replace the existing binding in place, or append a new one. -/
def dictSet {α β : Type} [DecidableEq α] : List (α × β) → α → β → List (α × β)
  | [], k, v => [(k, v)]
  | (k₀, v₀) :: rest, k, v =>
    if k₀ = k then (k, v) :: rest else (k₀, v₀) :: dictSet rest k v

/-- Python dict lookup on an insertion-ordered key/value list. -/
def dictGet? {α β : Type} [DecidableEq α] : List (α × β) → α → Option β
  | [], _ => none
  | (k₀, v₀) :: rest, k => if k₀ = k then some v₀ else dictGet? rest k

/-- The state of the `Devices` container: the name-keyed device dict
(`__devices`) and the group-address index (`__groups`), a dict of
per-address name-keyed dicts. -/
structure Devices where
  devices : List (String × Device)
  groups : List (GroupAddress × List (String × Device))
  deriving DecidableEq, Repr

/-- From `Devices.add`'s group loop body:
`self.__groups[group][device.name] = device`, creating the per-address dict
when the `KeyError` branch hits. -/
def groupsAdd (n : String) (d : Device)
    (gs : List (GroupAddress × List (String × Device))) (g : GroupAddress) :
    List (GroupAddress × List (String × Device)) :=
  match dictGet? gs g with
  | some inner => dictSet gs g (dictSet inner n d)
  | none => dictSet gs g [(n, d)]

/-- From `Devices.add`: reject a non-`Device` argument with `TypeError`;
reject a `None` or already-registered name with `XKNXException`; otherwise
record the device under its name and index it under every address of
`all_addresses`.  Both checks precede every mutation, so a rejected call
returns the container unchanged. -/
def Devices.add (ds : Devices) (arg : AddArg) : Devices × Option AddError :=
  match arg with
  | AddArg.nonDevice _ => (ds, some AddError.typeError)
  | AddArg.device d =>
    match d.name with
    | none => (ds, some (AddError.alreadyRegistered none))
    | some n =>
      if (dictGet? ds.devices n).isSome then
        (ds, some (AddError.alreadyRegistered (some n)))
      else
        ({ devices := dictSet ds.devices n d,
           groups := d.all_addresses.foldl (groupsAdd n d) ds.groups },
         none)

/-- From `Devices.devices_by_group_address`: an address missing from the
index yields nothing; otherwise the values of its per-address dict. -/
def Devices.devices_by_group_address (ds : Devices) (ga : GroupAddress) :
    List Device :=
  match dictGet? ds.groups ga with
  | none => []
  | some inner => inner.map Prod.snd

/-! ## Request/Response action

Modelled from the spec: the generic request/response state machine behind
Connect, ConnectionState, Disconnect and Tunnelling-ack.  Only the
response-handling step is modelled here: the handler receives a response
frame and either ignores it (wrong service type), succeeds (status
`E_NO_ERROR`, copying carried session fields), or fails (any other status,
carrying the error code). -/

/-- KNXnet/IP error codes carried in response status fields. -/
inductive ErrorCode where
  | E_NO_ERROR
  | E_HOST_PROTOCOL_TYPE
  | E_CONNECTION_ID
  | E_CONNECTION_TYPE
  | E_CONNECTION_OPTION
  | E_NO_MORE_CONNECTIONS
  | E_DATA_CONNECTION
  | E_KNX_CONNECTION
  deriving DecidableEq, Repr

/-- The states of the request/response action state machine. -/
inductive RRState where
  | IDLE
  | AWAITING_RESPONSE
  | SUCCEEDED
  | FAILED
  | TIMED_OUT
  deriving DecidableEq, Repr

/-- A request/response action: the response service type it awaits, its
current state, and the session fields a successful response carries onto
it. -/
structure RequestResponse where
  awaitedServiceType : Nat
  state : RRState
  communication_channel : Option Nat
  identifier : Option Nat
  deriving DecidableEq, Repr

/-- A decoded response frame as the action's handler sees it: the service
type of its body, its status code, and the session fields it carries. -/
structure ResponseFrame where
  serviceType : Nat
  status_code : ErrorCode
  communication_channel : Nat
  identifier : Nat
  deriving DecidableEq, Repr

/-- Log entries the response handler can emit. -/
inductive RRLog where
  | warnCantUnderstand
  | warnErrorCode (code : ErrorCode)
  | debugSuccess (code : ErrorCode)
  deriving DecidableEq, Repr

/-- Modelled from the spec: `response_rec_callback`: a frame of an
unexpected service type is ignored with a diagnostic log and changes
nothing; an expected frame with status `E_NO_ERROR` makes the action
succeed and copies the carried session fields onto it; any other status
makes the action fail, logging a warning that carries the error code. -/
def response_rec_callback (rr : RequestResponse) (f : ResponseFrame) :
    RequestResponse × List RRLog :=
  if f.serviceType = rr.awaitedServiceType then
    if f.status_code = ErrorCode.E_NO_ERROR then
      ({ rr with
          state := RRState.SUCCEEDED,
          communication_channel := some f.communication_channel,
          identifier := some f.identifier },
       [RRLog.debugSuccess ErrorCode.E_NO_ERROR])
    else
      ({ rr with state := RRState.FAILED }, [RRLog.warnErrorCode f.status_code])
  else
    (rr, [RRLog.warnCantUnderstand])

/-- The number of rate-limit suspensions in a trace. -/
def countSleep : List Event → Nat
  | [] => 0
  | Event.sleep _ :: rest => countSleep rest + 1
  | _ :: rest => countSleep rest

/-- Whether a trace touches the device registry: a `devices_by_group_address`
lookup or a device `process` call. -/
def touchesDevices : List Event → Bool
  | [] => false
  | Event.deviceLookup _ :: _ => true
  | Event.deviceProcess _ :: _ => true
  | _ :: rest => touchesDevices rest

end Xknx

namespace Xknx

/-- C1: decoding the 16-byte ConnectionStateRequest wire sample yields a
ConnectionStateRequest body with communication channel id 21 and control
endpoint HPAI 192.168.200.12:50100, and encoding the normalized frame built
from exactly those field values reproduces the identical 16 bytes. -/
theorem connectionstate_request_wire_roundtrip :
    KNXIPFrame.decode connectionStateRequestSample =
      Except.ok connectionStateRequestFrame ∧
    KNXIPFrame.encode connectionStateRequestFrame = connectionStateRequestSample := by
  constructor <;> rfl

/-- C2: decoding any truncated version of the 16-byte ConnectionStateRequest
sample (every proper prefix, in particular the first 6 bytes) fails with a
frame-parse error and never returns a partial decoded frame. -/
theorem truncated_frame_decode_fails (n : Nat) (h : n < 16) :
    isParseError (KNXIPFrame.decode (connectionStateRequestSample.take n)) = true := by
  revert n h
  decide

/-- Witness for C2 at the concrete truncation of the test: the first 6
bytes of the sample fail to decode. -/
theorem truncated_frame_decode_fails_witness :
    isParseError (KNXIPFrame.decode (connectionStateRequestSample.take 6)) = true :=
  truncated_frame_decode_fails 6 (by decide)

/-- `countSleep` distributes over trace concatenation. -/
theorem countSleep_append (l₁ l₂ : List Event) :
    countSleep (l₁ ++ l₂) = countSleep l₁ + countSleep l₂ := by
  induction l₁ with
  | nil => simp [countSleep]
  | cons e rest ih =>
    cases e
    all_goals simp [countSleep, ih]
    all_goals omega

/-- Device `process` calls contribute no suspension to a trace. -/
theorem countSleep_map_deviceProcess (devs : List Nat) :
    countSleep (devs.map Event.deviceProcess) = 0 := by
  induction devs with
  | nil => rfl
  | cons d rest ih => simpa [countSleep] using ih

/-- Incoming dispatch never suspends: its trace holds callback invocations
and device routing only. -/
theorem countSleep_dispatchIncoming (cbs : List TelegramCallback)
    (devs : GroupAddress → List Nat) (idx : Nat) (t : Telegram) :
    countSleep (dispatchIncoming cbs devs idx t) = 0 := by
  induction cbs generalizing idx with
  | nil => simpa [dispatchIncoming, countSleep] using countSleep_map_deviceProcess _
  | cons cb rest ih =>
    by_cases hm : cb.matches t = true
    · by_cases hc : cb.callback t = true
      · simp [dispatchIncoming, hm, hc, countSleep]
      · simp only [dispatchIncoming, hm, if_true, Bool.not_eq_true] at *
        simp [hc, countSleep, ih]
    · simp only [Bool.not_eq_true] at hm
      simp [dispatchIncoming, hm, ih]

/-- If a matching callback in the suffix reports "handled", the dispatch
trace of that suffix never reaches the device registry. -/
theorem dispatchIncoming_handled_no_devices (cbs : List TelegramCallback)
    (devs : GroupAddress → List Nat) (idx : Nat) (t : Telegram)
    (h : ∃ cb ∈ cbs, cb.matches t = true ∧ cb.callback t = true) :
    touchesDevices (dispatchIncoming cbs devs idx t) = false := by
  induction cbs generalizing idx with
  | nil => simp at h
  | cons cb rest ih =>
    obtain ⟨c, hmem, hm, hc⟩ := h
    by_cases hcm : cb.matches t = true
    · by_cases hcc : cb.callback t = true
      · simp [dispatchIncoming, hcm, hcc, touchesDevices]
      · have hcr : c ∈ rest := by
          rcases List.mem_cons.mp hmem with heq | hrest
          · exact absurd (heq ▸ hc) hcc
          · exact hrest
        simp only [dispatchIncoming, hcm, if_true]
        simp only [Bool.not_eq_true] at hcc
        simp [hcc, touchesDevices, ih _ ⟨c, hcr, hm, hc⟩]
    · have hcr : c ∈ rest := by
        rcases List.mem_cons.mp hmem with heq | hrest
        · exact absurd (heq ▸ hm) hcm
        · exact hrest
      simp only [Bool.not_eq_true] at hcm
      simp [dispatchIncoming, hcm, ih _ ⟨c, hcr, hm, hc⟩]

/-- C3: if some registered matching callback reports "handled" for an
incoming telegram, dispatch stops for that telegram: the processing trace
contains no `devices_by_group_address` lookup and no device `process`
call. -/
theorem handled_callback_short_circuits_devices (ctx : QueueContext) (t : Telegram)
    (h : ∃ cb ∈ ctx.callbacks, cb.matches t = true ∧ cb.callback t = true) :
    touchesDevices (process_telegram_incoming ctx t) = false :=
  dispatchIncoming_handled_no_devices ctx.callbacks ctx.devices_by_group_address 0 t h

/-- A context with one unfiltered callback that consumes every telegram. -/
def handledCtx : QueueContext :=
  { callbacks := [⟨fun _ => true, none⟩],
    devices_by_group_address := fun _ => [7],
    rate_limit := 0,
    has_knxip_interface := false }

/-- An incoming telegram to 1/2/3 with a one-bit payload, as in the tests. -/
def sampleIncoming : Telegram :=
  { direction := TelegramDirection.INCOMING,
    group_address := GroupAddress.ofLevels 1 2 3,
    telegramtype := TelegramType.GROUP_WRITE,
    payload := some 1 }

/-- Witness for C3: with a registered always-handling callback, processing a
concrete incoming telegram touches no device. -/
theorem handled_callback_short_circuits_devices_witness :
    touchesDevices (process_telegram_incoming handledCtx sampleIncoming) = false :=
  handled_callback_short_circuits_devices handledCtx sampleIncoming
    ⟨⟨fun _ => true, none⟩, by simp [handledCtx], rfl, rfl⟩

/-- C4: an exception raised while processing a telegram is caught at the
consume-loop level and logged together with the offending telegram; it does
not propagate, and every telegram queued after it is still processed
exactly as it would have been on its own. -/
theorem exception_logged_and_loop_continues (inner : XknxRaising)
    (pre post : List Telegram) (t : Telegram) (e : String)
    (h : inner t = Except.error e) :
    consume_loop inner (pre ++ t :: post) =
      consume_loop inner pre ++ Event.logError t e :: consume_loop inner post := by
  induction pre with
  | nil => simp [consume_loop, h]
  | cons p ps ih =>
    simp only [List.cons_append, consume_loop]
    cases hp : inner p
    all_goals simp [ih]

/-- An inner processing step that raises on telegrams carrying payload 99
and otherwise reports one callback invocation. -/
def raisingInner : XknxRaising := fun t =>
  if t.payload = some 99 then Except.error "CouldNotParseTelegram"
  else Except.ok [Event.cbInvoked 0]

/-- A telegram on which `raisingInner` raises. -/
def badTelegram : Telegram :=
  { direction := TelegramDirection.INCOMING,
    group_address := GroupAddress.ofLevels 1 2 3,
    telegramtype := TelegramType.GROUP_WRITE,
    payload := some 99 }

/-- Witness for C4: a malformed telegram between two good ones is logged
and both neighbours are still processed. -/
theorem exception_logged_and_loop_continues_witness :
    consume_loop raisingInner [sampleIncoming, badTelegram, sampleIncoming] =
      consume_loop raisingInner [sampleIncoming] ++
        Event.logError badTelegram "CouldNotParseTelegram" ::
          consume_loop raisingInner [sampleIncoming] :=
  exception_logged_and_loop_continues raisingInner [sampleIncoming] [sampleIncoming]
    badTelegram "CouldNotParseTelegram" rfl

/-- C8: with a configured rate limit of 20 outgoing telegrams per second
(minimum inter-telegram interval 1/20 = 0.05 seconds), processing an
outgoing telegram suspends exactly once, for that interval, before any
transmission event; two consecutive outgoing telegrams incur two such
suspensions; and processing an incoming telegram never suspends. -/
theorem rate_limit_delays_outgoing_only (ctx : QueueContext)
    (hrl : ctx.rate_limit = 20) (t u v : Telegram)
    (ht : t.direction = TelegramDirection.OUTGOING)
    (hu : u.direction = TelegramDirection.OUTGOING)
    (hv : v.direction = TelegramDirection.INCOMING) :
    (process_telegram_by_direction ctx t).head? = some (Event.sleep (1 / 20)) ∧
    countSleep (process_telegram_by_direction ctx t) = 1 ∧
    countSleep (process_telegram_by_direction ctx t ++
      process_telegram_by_direction ctx u) = 2 ∧
    countSleep (process_telegram_by_direction ctx v) = 0 := by
  have hout : ∀ w : Telegram, w.direction = TelegramDirection.OUTGOING →
      process_telegram_by_direction ctx w =
        Event.sleep (1 / 20) ::
          (if ctx.has_knxip_interface then [Event.send w] else [Event.logWarnNoInterface]) := by
    intro w hw
    simp [process_telegram_by_direction, hw, process_telegram_outgoing, hrl]
  have hcount : ∀ w : Telegram, w.direction = TelegramDirection.OUTGOING →
      countSleep (process_telegram_by_direction ctx w) = 1 := by
    intro w hw
    rw [hout w hw]
    cases hi : ctx.has_knxip_interface <;> simp [countSleep]
  refine ⟨?_, hcount t ht, ?_, ?_⟩
  · rw [hout t ht]; rfl
  · rw [countSleep_append, hcount t ht, hcount u hu]
  · simp [process_telegram_by_direction, hv, process_telegram_incoming,
      countSleep_dispatchIncoming]

/-- An outgoing telegram to 1/2/3 with a one-bit payload, as in the tests. -/
def sampleOutgoing : Telegram :=
  { direction := TelegramDirection.OUTGOING,
    group_address := GroupAddress.ofLevels 1 2 3,
    telegramtype := TelegramType.GROUP_WRITE,
    payload := some 1 }

/-- A context configured with rate limit 20 and an attached interface. -/
def rateLimitCtx : QueueContext :=
  { callbacks := [],
    devices_by_group_address := fun _ => [],
    rate_limit := 20,
    has_knxip_interface := true }

/-- Witness for C8 on concrete telegrams and a concrete rate-limited
context. -/
theorem rate_limit_delays_outgoing_only_witness :
    (process_telegram_by_direction rateLimitCtx sampleOutgoing).head? =
      some (Event.sleep (1 / 20)) ∧
    countSleep (process_telegram_by_direction rateLimitCtx sampleOutgoing) = 1 ∧
    countSleep (process_telegram_by_direction rateLimitCtx sampleOutgoing ++
      process_telegram_by_direction rateLimitCtx sampleOutgoing) = 2 ∧
    countSleep (process_telegram_by_direction rateLimitCtx sampleIncoming) = 0 :=
  rate_limit_delays_outgoing_only rateLimitCtx rfl sampleOutgoing sampleOutgoing
    sampleIncoming rfl rfl rfl

/-- C7: `ValueReader.telegram_received` reports "handled" exactly when the
telegram's group address equals the reader's target address and its type is
GROUP_RESPONSE or GROUP_WRITE (in particular it reports not handled for a
different address or for a GROUP_READ). -/
theorem telegram_received_iff (target : GroupAddress) (t : Telegram) :
    ValueReader.telegram_received target t = true ↔
      t.group_address = target ∧
        (t.telegramtype = TelegramType.GROUP_RESPONSE ∨
          t.telegramtype = TelegramType.GROUP_WRITE) := by
  simp only [ValueReader.telegram_received, Bool.and_eq_true, Bool.or_eq_true,
    beq_iff_eq]
  tauto

/-- C6: `ValueReader.read`: when no delivered telegram matches before the
timeout (in particular with timeout 0, when nothing is delivered at all)
the result is absent and exactly one warning naming the target address is
logged; when some delivered telegram matches, the first matching telegram
is returned and no warning is logged; on both paths the callback registry
is restored, leaving no residual registered callback. -/
theorem value_reader_read_paths (target : GroupAddress) (tok : Nat)
    (cbs : List Nat) (delivered : List Telegram) (hfresh : tok ∉ cbs) :
    (delivered.find? (fun t => ValueReader.telegram_received target t) = none →
      (ValueReader.read target tok cbs delivered).result = none ∧
      (ValueReader.read target tok cbs delivered).warnings = [target]) ∧
    (∀ t, delivered.find? (fun t => ValueReader.telegram_received target t) = some t →
      (ValueReader.read target tok cbs delivered).result = some t ∧
      (ValueReader.read target tok cbs delivered).warnings = []) ∧
    (ValueReader.read target tok cbs delivered).callbacks = cbs := by
  refine ⟨fun hnone => ?_, fun t ht => ?_, ?_⟩
  · simp [ValueReader.read, hnone]
  · simp [ValueReader.read, ht]
  · simp [ValueReader.read, List.erase_append_right _ hfresh]

/-- The target group address 0/0/0 used by the value-reader tests. -/
def readerTarget : GroupAddress := GroupAddress.ofLevels 0 0 0

/-- A GROUP_RESPONSE telegram for 0/0/0 with a one-bit payload. -/
def responseTelegram : Telegram :=
  { direction := TelegramDirection.INCOMING,
    group_address := readerTarget,
    telegramtype := TelegramType.GROUP_RESPONSE,
    payload := some 1 }

/-- Witness for C6: both paths at concrete inputs: an empty wait window
(timeout 0) yields no result, one warning for 0/0/0 and an empty registry;
a delivered matching GROUP_RESPONSE yields exactly that telegram, no
warning and an empty registry. -/
theorem value_reader_read_paths_witness :
    (ValueReader.read readerTarget 0 [] []).result = none ∧
    (ValueReader.read readerTarget 0 [] []).warnings = [readerTarget] ∧
    (ValueReader.read readerTarget 0 [] []).callbacks = [] ∧
    (ValueReader.read readerTarget 0 [] [responseTelegram]).result =
      some responseTelegram ∧
    (ValueReader.read readerTarget 0 [] [responseTelegram]).warnings = [] ∧
    (ValueReader.read readerTarget 0 [] [responseTelegram]).callbacks = [] := by
  obtain ⟨hnone, _, hcb⟩ :=
    value_reader_read_paths readerTarget 0 [] [] (by simp)
  obtain ⟨_, hsome, hcb2⟩ :=
    value_reader_read_paths readerTarget 0 [] [responseTelegram] (by simp)
  exact ⟨(hnone rfl).1, (hnone rfl).2, hcb,
    (hsome responseTelegram rfl).1, (hsome responseTelegram rfl).2, hcb2⟩

/-- C5: `response_rec_callback`: on a response frame of the awaited service
type with status `E_NO_ERROR`, the action succeeds and the carried session
fields (communication channel id, identifier) are copied onto it; on any
other status the action fails and a warning carrying that error code is
logged; a frame of an unexpected service type leaves the action unchanged
and only logs a diagnostic message. -/
theorem response_rec_callback_cases (rr : RequestResponse) (f : ResponseFrame) :
    (f.serviceType = rr.awaitedServiceType → f.status_code = ErrorCode.E_NO_ERROR →
      (response_rec_callback rr f).1.state = RRState.SUCCEEDED ∧
      (response_rec_callback rr f).1.communication_channel =
        some f.communication_channel ∧
      (response_rec_callback rr f).1.identifier = some f.identifier) ∧
    (f.serviceType = rr.awaitedServiceType → f.status_code ≠ ErrorCode.E_NO_ERROR →
      (response_rec_callback rr f).1.state = RRState.FAILED ∧
      (response_rec_callback rr f).2 = [RRLog.warnErrorCode f.status_code]) ∧
    (f.serviceType ≠ rr.awaitedServiceType →
      (response_rec_callback rr f).1 = rr ∧
      (response_rec_callback rr f).2 = [RRLog.warnCantUnderstand]) := by
  refine ⟨fun hst hok => ?_, fun hst hko => ?_, fun hst => ?_⟩
  · simp [response_rec_callback, hst, hok]
  · simp [response_rec_callback, hst, hko]
  · simp [response_rec_callback, hst]

/-- A connect action awaiting a CONNECT_RESPONSE (service type 0x0206),
still waiting. -/
def connectAction : RequestResponse :=
  { awaitedServiceType := 0x0206,
    state := RRState.AWAITING_RESPONSE,
    communication_channel := none,
    identifier := none }

/-- Witness for C5 at the three concrete frames of the connect test: a
successful CONNECT_RESPONSE carrying channel 23 and identifier 7, a
CONNECT_RESPONSE with error `E_CONNECTION_ID`, and a frame of the wrong
service type 0x0207. -/
theorem response_rec_callback_cases_witness :
    (response_rec_callback connectAction
      ⟨0x0206, ErrorCode.E_NO_ERROR, 23, 7⟩).1.state = RRState.SUCCEEDED ∧
    (response_rec_callback connectAction
      ⟨0x0206, ErrorCode.E_NO_ERROR, 23, 7⟩).1.communication_channel = some 23 ∧
    (response_rec_callback connectAction
      ⟨0x0206, ErrorCode.E_NO_ERROR, 23, 7⟩).1.identifier = some 7 ∧
    (response_rec_callback connectAction
      ⟨0x0206, ErrorCode.E_CONNECTION_ID, 0, 0⟩).1.state = RRState.FAILED ∧
    (response_rec_callback connectAction
      ⟨0x0206, ErrorCode.E_CONNECTION_ID, 0, 0⟩).2 =
        [RRLog.warnErrorCode ErrorCode.E_CONNECTION_ID] ∧
    (response_rec_callback connectAction
      ⟨0x0207, ErrorCode.E_NO_ERROR, 0, 0⟩).1 = connectAction ∧
    (response_rec_callback connectAction
      ⟨0x0207, ErrorCode.E_NO_ERROR, 0, 0⟩).2 = [RRLog.warnCantUnderstand] := by
  obtain ⟨hok, _, _⟩ :=
    response_rec_callback_cases connectAction ⟨0x0206, ErrorCode.E_NO_ERROR, 23, 7⟩
  obtain ⟨_, hko, _⟩ :=
    response_rec_callback_cases connectAction ⟨0x0206, ErrorCode.E_CONNECTION_ID, 0, 0⟩
  obtain ⟨_, _, hwr⟩ :=
    response_rec_callback_cases connectAction ⟨0x0207, ErrorCode.E_NO_ERROR, 0, 0⟩
  refine ⟨(hok rfl rfl).1, (hok rfl rfl).2.1, (hok rfl rfl).2.2,
    (hko rfl (by decide)).1, (hko rfl (by decide)).2,
    (hwr (by decide)).1, (hwr (by decide)).2⟩

/-! ## Configuration error propagation (C9) -/

/-- The single device type used by the concrete configuration examples. -/
def switchDeviceTypes : List String := ["switch"]

/-- A device construction step that raises `XKNXException` on every entry,
as an unparseable group entry does. -/
def failingParseCls : String → String → Except XKNXException Unit :=
  fun _ _ => Except.error ⟨"Could not parse address"⟩

/-- A document whose only content is a group section that fails to parse. -/
def groupFailDoc : ConfigDoc :=
  { connection := none, groups := some ["switch"] }

/-- A document whose connection section is a tunneling entry without a
`gateway_ip`. -/
def tunnelingDoc : ConfigDoc :=
  { connection := some [("tunneling", none)], groups := none }

/-- Counterexample to C9: an unparseable group entry raises an
`XKNXException`, yet `Config.read` returns normally, the exception only
logged — it is not surfaced to the caller. -/
theorem config_read_swallows_group_error :
    (Config.read switchDeviceTypes failingParseCls groupFailDoc).2 =
      Except.ok () ∧
    (Config.read switchDeviceTypes failingParseCls groupFailDoc).1 =
      [ConfigLog.couldNotParseGroup "switch" ⟨"Could not parse address"⟩] := by
  constructor <;> rfl

/-- C9 (amended): an `XKNXException` raised while parsing a connection
entry (e.g. a tunneling connection without `gateway_ip`) is logged and
re-raised, so `Config.read` surfaces it to its caller; an `XKNXException`
raised while parsing a group entry is caught and only logged, and
`Config.read` returns normally. -/
theorem config_read_error_propagation (deviceTypes : List String)
    (parseCls : String → String → Except XKNXException Unit) (doc : ConfigDoc)
    (conn : String) (prefs : ConnPrefs) (rest : List (String × ConnPrefs))
    (ex : XKNXException) (g nm : String) :
    (doc.connection = some ((conn, prefs) :: rest) →
      parse_connection_entry conn prefs = Except.error ex →
      Config.read deviceTypes parseCls doc =
        ([ConfigLog.couldNotParseConnection conn ex], Except.error ex)) ∧
    ((parse_connection doc).2 = Except.ok () →
      (Config.read deviceTypes parseCls doc).2 = Except.ok ()) ∧
    (doc.connection = none → doc.groups = some [g] →
      deviceTypes.find? (fun name => pyStartsWith g name) = some nm →
      parseCls nm g = Except.error ex →
      Config.read deviceTypes parseCls doc =
        ([ConfigLog.couldNotParseGroup g ex], Except.ok ())) := by
  refine ⟨fun hconn hent => ?_, fun hok => ?_, fun hc hg hf hp => ?_⟩
  · have hpc : parse_connection doc =
        ([ConfigLog.couldNotParseConnection conn ex], Except.error ex) := by
      simp [parse_connection, hconn, parse_connection_list, hent]
    simp [Config.read, hpc]
  · unfold Config.read
    rcases hpc : parse_connection doc with ⟨logs, r⟩
    rw [hpc] at hok
    cases r
    · simp at hok
    · simp
  · have hpc : parse_connection doc = ([], Except.ok ()) := by
      simp [parse_connection, hc]
    simp [Config.read, hpc, parse_groups, hg, parse_group, hf, hp]

/-- Witness for C9 (amended) at the two concrete documents: the
tunneling-without-gateway document makes `Config.read` raise after logging;
the failing-group document makes it return normally. -/
theorem config_read_error_propagation_witness :
    Config.read switchDeviceTypes failingParseCls tunnelingDoc =
      ([ConfigLog.couldNotParseConnection "tunneling"
          ⟨"gateway_ip is required for tunneling connection."⟩],
        Except.error ⟨"gateway_ip is required for tunneling connection."⟩) ∧
    (Config.read switchDeviceTypes failingParseCls groupFailDoc).2 =
      Except.ok () := by
  refine ⟨?_, ?_⟩
  · exact (config_read_error_propagation switchDeviceTypes failingParseCls
      tunnelingDoc "tunneling" none []
      ⟨"gateway_ip is required for tunneling connection."⟩ "" "").1 rfl rfl
  · exact (config_read_error_propagation switchDeviceTypes failingParseCls
      groupFailDoc "" none []
      ⟨"Could not parse address"⟩ "switch" "switch").2.1 rfl

/-! ## Device container (C10) -/

/-- Setting a key makes it found, bound to the set value. -/
theorem dictGet?_dictSet_self {α β : Type} [DecidableEq α]
    (l : List (α × β)) (k : α) (v : β) :
    dictGet? (dictSet l k v) k = some v := by
  induction l with
  | nil => simp [dictSet, dictGet?]
  | cons kv rest ih =>
    obtain ⟨k₀, v₀⟩ := kv
    by_cases h : k₀ = k
    · simp [dictSet, dictGet?, h]
    · simp [dictSet, dictGet?, h, ih]

/-- Setting one key leaves lookups of every other key unchanged. -/
theorem dictGet?_dictSet_other {α β : Type} [DecidableEq α]
    (l : List (α × β)) (k k' : α) (v : β) (h : k' ≠ k) :
    dictGet? (dictSet l k v) k' = dictGet? l k' := by
  induction l with
  | nil => simp [dictSet, dictGet?, Ne.symm h]
  | cons kv rest ih =>
    obtain ⟨k₀, v₀⟩ := kv
    by_cases h₀ : k₀ = k
    · subst h₀
      simp [dictSet, dictGet?, Ne.symm h]
    · simp [dictSet, dictGet?, h₀, ih]

/-- The value just set appears among the dict's values. -/
theorem mem_values_dictSet {α β : Type} [DecidableEq α]
    (l : List (α × β)) (k : α) (v : β) :
    v ∈ (dictSet l k v).map Prod.snd := by
  induction l with
  | nil => simp [dictSet]
  | cons kv rest ih =>
    obtain ⟨k₀, v₀⟩ := kv
    by_cases h : k₀ = k
    · simp [dictSet, h]
    · simp only [dictSet, h, if_false, List.map_cons, List.mem_cons]
      exact Or.inr ih

/-- After indexing a device under an address, the device is among that
address's entry values. -/
theorem groupsAdd_mem_self (n : String) (d : Device)
    (gs : List (GroupAddress × List (String × Device))) (g : GroupAddress) :
    ∃ inner, dictGet? (groupsAdd n d gs g) g = some inner ∧
      d ∈ inner.map Prod.snd := by
  unfold groupsAdd
  cases h : dictGet? gs g with
  | some inner =>
    exact ⟨dictSet inner n d, dictGet?_dictSet_self _ _ _,
      mem_values_dictSet _ _ _⟩
  | none =>
    exact ⟨[(n, d)], dictGet?_dictSet_self _ _ _, by simp⟩

/-- Indexing a device under one address preserves (or establishes) its
presence under any address. -/
theorem groupsAdd_preserves (n : String) (d : Device)
    (gs : List (GroupAddress × List (String × Device))) (g g' : GroupAddress)
    (h : ∃ inner, dictGet? gs g = some inner ∧ d ∈ inner.map Prod.snd) :
    ∃ inner, dictGet? (groupsAdd n d gs g') g = some inner ∧
      d ∈ inner.map Prod.snd := by
  by_cases hgg : g = g'
  · subst hgg
    exact groupsAdd_mem_self n d gs g
  · obtain ⟨inner, hi, hm⟩ := h
    refine ⟨inner, ?_, hm⟩
    unfold groupsAdd
    cases hg' : dictGet? gs g' <;>
      rw [dictGet?_dictSet_other _ _ _ _ hgg] <;> exact hi

/-- The presence of a device under an address survives indexing it under a
whole list of addresses. -/
theorem foldl_groupsAdd_preserves (n : String) (d : Device)
    (addrs : List GroupAddress)
    (gs : List (GroupAddress × List (String × Device))) (g : GroupAddress)
    (h : ∃ inner, dictGet? gs g = some inner ∧ d ∈ inner.map Prod.snd) :
    ∃ inner, dictGet? (addrs.foldl (groupsAdd n d) gs) g = some inner ∧
      d ∈ inner.map Prod.snd := by
  induction addrs generalizing gs with
  | nil => exact h
  | cons a rest ih => exact ih _ (groupsAdd_preserves n d gs g a h)

/-- After indexing a device under every address of a list, it is present
under each address of the list. -/
theorem foldl_groupsAdd_mem (n : String) (d : Device)
    (addrs : List GroupAddress)
    (gs : List (GroupAddress × List (String × Device))) (g : GroupAddress)
    (hg : g ∈ addrs) :
    ∃ inner, dictGet? (addrs.foldl (groupsAdd n d) gs) g = some inner ∧
      d ∈ inner.map Prod.snd := by
  induction addrs generalizing gs with
  | nil => simp at hg
  | cons a rest ih =>
    rcases List.mem_cons.mp hg with heq | hrest
    · subst heq
      exact foldl_groupsAdd_preserves n d rest _ g (groupsAdd_mem_self n d gs g)
    · exact ih (groupsAdd n d gs a) hrest

/-- C10: `Devices.add` raises `TypeError` on a non-device argument and
`XKNXException` on a missing or already-registered name, leaving the
container unchanged in every failure case; on success no error is raised,
the device is reachable by its name, and `devices_by_group_address` yields
it for each address of its `all_addresses`. -/
theorem devices_add_spec (ds : Devices) (d : Device) (s n : String) :
    Devices.add ds (AddArg.nonDevice s) = (ds, some AddError.typeError) ∧
    (d.name = none →
      Devices.add ds (AddArg.device d) =
        (ds, some (AddError.alreadyRegistered none))) ∧
    (d.name = some n → (dictGet? ds.devices n).isSome = true →
      Devices.add ds (AddArg.device d) =
        (ds, some (AddError.alreadyRegistered (some n)))) ∧
    (d.name = some n → dictGet? ds.devices n = none →
      (Devices.add ds (AddArg.device d)).2 = none ∧
      dictGet? (Devices.add ds (AddArg.device d)).1.devices n = some d ∧
      ∀ g ∈ d.all_addresses,
        d ∈ Devices.devices_by_group_address (Devices.add ds (AddArg.device d)).1 g) := by
  refine ⟨rfl, fun h => ?_, fun h hs => ?_, fun h hn => ?_⟩
  · simp [Devices.add, h]
  · simp [Devices.add, h, hs]
  · have hns : (dictGet? ds.devices n).isSome = false := by simp [hn]
    refine ⟨by simp [Devices.add, h, hns], ?_, fun g hg => ?_⟩
    · simp [Devices.add, h, hns, dictGet?_dictSet_self]
    · obtain ⟨inner, hi, hm⟩ :=
        foldl_groupsAdd_mem n d d.all_addresses ds.groups g hg
      simp [Devices.add, h, hns, Devices.devices_by_group_address, hi, hm]

/-- The empty device container. -/
def emptyDevices : Devices := { devices := [], groups := [] }

/-- A light registered for group address 1/6/7, as in the container test. -/
def lightDevice : Device :=
  { name := some "light1", all_addresses := [GroupAddress.ofLevels 1 6 7] }

/-- A device whose name is absent. -/
def namelessDevice : Device := { name := none, all_addresses := [] }

/-- Witness for C10 on the concrete container: adding a non-device and a
nameless device fail without touching the container, adding the light
succeeds, makes it reachable by name and by its group address, and adding
it a second time fails with the container unchanged. -/
theorem devices_add_spec_witness :
    Devices.add emptyDevices (AddArg.nonDevice "fnord") =
      (emptyDevices, some AddError.typeError) ∧
    Devices.add emptyDevices (AddArg.device namelessDevice) =
      (emptyDevices, some (AddError.alreadyRegistered none)) ∧
    (Devices.add emptyDevices (AddArg.device lightDevice)).2 = none ∧
    dictGet? (Devices.add emptyDevices (AddArg.device lightDevice)).1.devices
      "light1" = some lightDevice ∧
    lightDevice ∈ Devices.devices_by_group_address
      (Devices.add emptyDevices (AddArg.device lightDevice)).1
      (GroupAddress.ofLevels 1 6 7) ∧
    Devices.add (Devices.add emptyDevices (AddArg.device lightDevice)).1
        (AddArg.device lightDevice) =
      ((Devices.add emptyDevices (AddArg.device lightDevice)).1,
        some (AddError.alreadyRegistered (some "light1"))) := by
  obtain ⟨hnd, hnone, _, hok⟩ :=
    devices_add_spec emptyDevices lightDevice "fnord" "light1"
  obtain ⟨_, hnames, _, _⟩ :=
    devices_add_spec emptyDevices namelessDevice "fnord" "light1"
  obtain ⟨_, _, hdup, _⟩ :=
    devices_add_spec (Devices.add emptyDevices (AddArg.device lightDevice)).1
      lightDevice "fnord" "light1"
  obtain ⟨h2, hname, hmem⟩ := hok rfl rfl
  exact ⟨hnd, hnames rfl, h2, hname,
    hmem (GroupAddress.ofLevels 1 6 7) (by simp [lightDevice]),
    hdup rfl (by rfl)⟩

end Xknx
